import Mathlib

/-!
Verification of the mbed-os Nordic NRF5x HAL (reset-reason and watchdog) and
of the cellular AT-command engine / context state machine described by the
specification of the repository.

The reset-reason and watchdog definitions are shallow embeddings of
`targets/TARGET_NORDIC/TARGET_NRF5x/reset_reason_api.c` and
`targets/TARGET_NORDIC/TARGET_NRF5x/watchdog_api.c`.  C `uint32_t`
arithmetic is modelled by `Nat` with explicit `% 2^32` where the C
computation can wrap.  Hardware register writes (NVIC, WDT tasks) have no
observable effect on the properties below and are not part of the state;
the state carries exactly the mutable variable the HAL exposes through its
getters (`nordic_nrf5_watchdog_timeout_ms`).

The AT engine and cellular context are modelled from the specification
(their .cpp sources are not available here); each such definition carries a
doc comment saying so.
-/

namespace MbedOS

/- ------------------------------------------------------------------ -/
/- Reset reason HAL: targets/TARGET_NORDIC/TARGET_NRF5x/reset_reason_api.c -/
/- ------------------------------------------------------------------ -/

/-- Platform independent reset reasons (`reset_reason_t` of the HAL API). -/
inductive reset_reason_t where
  | RESET_REASON_PIN_RESET
  | RESET_REASON_WATCHDOG
  | RESET_REASON_SOFTWARE
  | RESET_REASON_LOCKUP
  | RESET_REASON_PLATFORM
  | RESET_REASON_MULTIPLE
  | RESET_REASON_UNKNOWN
  deriving DecidableEq, Repr

open reset_reason_t

/-- The `NRF_POWER_RESETREAS_RESETPIN_MASK`: bit 0 of the POWER RESETREAS register. -/
def NRF_POWER_RESETREAS_RESETPIN_MASK : Nat := 0x1

/-- The `NRF_POWER_RESETREAS_DOG_MASK`: bit 1, watchdog reset. -/
def NRF_POWER_RESETREAS_DOG_MASK : Nat := 0x2

/-- The `NRF_POWER_RESETREAS_SREQ_MASK`: bit 2, soft reset request. -/
def NRF_POWER_RESETREAS_SREQ_MASK : Nat := 0x4

/-- The `NRF_POWER_RESETREAS_LOCKUP_MASK`: bit 3, CPU lockup. -/
def NRF_POWER_RESETREAS_LOCKUP_MASK : Nat := 0x8

/-- The `NRF_POWER_RESETREAS_OFF_MASK`: bit 16, wakeup from OFF by GPIO signal. -/
def NRF_POWER_RESETREAS_OFF_MASK : Nat := 0x10000

/-- The `NRF_POWER_RESETREAS_LPCOMP_MASK`: bit 17, wakeup by LP comparator. -/
def NRF_POWER_RESETREAS_LPCOMP_MASK : Nat := 0x20000

/-- The `NRF_POWER_RESETREAS_DIF_MASK`: bit 18, wakeup on entering debug interface mode. -/
def NRF_POWER_RESETREAS_DIF_MASK : Nat := 0x40000

/-- The `NRF_POWER_RESETREAS_NFC_MASK`: bit 19, wakeup by NFC field. -/
def NRF_POWER_RESETREAS_NFC_MASK : Nat := 0x80000

/-- The `NRF_POWER_RESETREAS_VBUS_MASK`: bit 20, wakeup by VBUS. -/
def NRF_POWER_RESETREAS_VBUS_MASK : Nat := 0x100000

/-- The `hal_reset_reason_get` of `reset_reason_api.c`, as a function of the value
read from the reset-reason register (`nrf_power_resetreas_get()`).  The chain
of `reason == MASK` comparisons is transcribed branch by branch; the
conditionally compiled LPCOMP/NFC/VBUS branches are present (their masks are
defined on the nRF52 POWER peripheral this file targets). -/
def hal_reset_reason_get (reason : Nat) : reset_reason_t :=
  if reason = NRF_POWER_RESETREAS_RESETPIN_MASK then
    RESET_REASON_PIN_RESET
  else if reason = NRF_POWER_RESETREAS_DOG_MASK then
    RESET_REASON_WATCHDOG
  else if reason = NRF_POWER_RESETREAS_SREQ_MASK then
    RESET_REASON_SOFTWARE
  else if reason = NRF_POWER_RESETREAS_LOCKUP_MASK then
    RESET_REASON_LOCKUP
  else if reason = NRF_POWER_RESETREAS_OFF_MASK then
    RESET_REASON_PLATFORM
  else if reason = NRF_POWER_RESETREAS_DIF_MASK then
    RESET_REASON_PLATFORM
  else if reason = NRF_POWER_RESETREAS_LPCOMP_MASK then
    RESET_REASON_PLATFORM
  else if reason = NRF_POWER_RESETREAS_NFC_MASK then
    RESET_REASON_PLATFORM
  else if reason = NRF_POWER_RESETREAS_VBUS_MASK then
    RESET_REASON_PLATFORM
  else if reason ≠ 0 then
    RESET_REASON_MULTIPLE
  else
    RESET_REASON_UNKNOWN

/-- The register values recognized by exactly one branch of the
comparison chain in `hal_reset_reason_get`. -/
def recognizedMasks : List Nat :=
  [NRF_POWER_RESETREAS_RESETPIN_MASK,
   NRF_POWER_RESETREAS_DOG_MASK,
   NRF_POWER_RESETREAS_SREQ_MASK,
   NRF_POWER_RESETREAS_LOCKUP_MASK,
   NRF_POWER_RESETREAS_OFF_MASK,
   NRF_POWER_RESETREAS_LPCOMP_MASK,
   NRF_POWER_RESETREAS_DIF_MASK,
   NRF_POWER_RESETREAS_NFC_MASK,
   NRF_POWER_RESETREAS_VBUS_MASK]

/- ------------------------------------------------------------------ -/
/- Watchdog HAL: targets/TARGET_NORDIC/TARGET_NRF5x/watchdog_api.c -/
/- ------------------------------------------------------------------ -/

/-- The `UINT32_MAX` of `<stdint.h>`. -/
def UINT32_MAX : Nat := 4294967295

/-- Return status of the watchdog HAL calls (`watchdog_status_t`). -/
inductive watchdog_status_t where
  | WATCHDOG_STATUS_OK
  | WATCHDOG_STATUS_NOT_SUPPORTED
  | WATCHDOG_STATUS_INVALID_ARGUMENT
  deriving DecidableEq, Repr

open watchdog_status_t

/-- The `watchdog_config_t`: configuration passed to `hal_watchdog_init`.
`timeout_ms` is a C `uint32_t`, so its value is below `2^32`. -/
structure watchdog_config_t where
  timeout_ms : Nat
  deriving Repr

/-- The `watchdog_features_t`: platform capabilities advertised by
`hal_watchdog_get_platform_features`. -/
structure watchdog_features_t where
  max_timeout : Nat
  update_config : Bool
  disable_watchdog : Bool
  deriving Repr

/-- The `nordic_nrf5_features` of `watchdog_api.c`:
`max_timeout = (UINT32_MAX / 32768) * 1000`, updates and disabling supported. -/
def nordic_nrf5_features : watchdog_features_t :=
  { max_timeout := (UINT32_MAX / 32768) * 1000
    update_config := true
    disable_watchdog := true }

/-- The mutable state of `watchdog_api.c`: the file-scope variable
`nordic_nrf5_watchdog_timeout_ms` (initially 0), read back by
`hal_watchdog_get_reload_value`. -/
structure WatchdogState where
  nordic_nrf5_watchdog_timeout_ms : Nat
  deriving Repr

/-- The tick conversion inside `hal_watchdog_init`:
`uint64_t timeout_ticks = (config->timeout_ms * 32768) / 1000;`.
`config->timeout_ms` is `uint32_t` and `32768` is `int`, so the
multiplication and the division are performed in 32-bit unsigned
arithmetic (the product wraps modulo `2^32`) before the widening
assignment to `uint64_t`. -/
def timeout_ticks (timeout_ms : Nat) : Nat :=
  ((timeout_ms * 32768) % 2 ^ 32) / 1000

/-- The `hal_watchdog_init` of `watchdog_api.c`.  The default result is
`WATCHDOG_STATUS_INVALID_ARGUMENT`; if the converted tick count is
strictly between 0 and `UINT32_MAX` the HAL stores the millisecond value
for read back, programs the peripheral, and answers
`WATCHDOG_STATUS_OK`.  Peripheral register writes are not observable
through this API and are elided. -/
def hal_watchdog_init (config : watchdog_config_t) (s : WatchdogState)
    : watchdog_status_t × WatchdogState :=
  let ticks := timeout_ticks config.timeout_ms
  if 0 < ticks ∧ ticks < UINT32_MAX then
    (WATCHDOG_STATUS_OK, { s with nordic_nrf5_watchdog_timeout_ms := config.timeout_ms })
  else
    (WATCHDOG_STATUS_INVALID_ARGUMENT, s)

/-- The `hal_watchdog_get_reload_value`: returns the stored timeout value. -/
def hal_watchdog_get_reload_value (s : WatchdogState) : Nat :=
  s.nordic_nrf5_watchdog_timeout_ms

/-- The `hal_watchdog_get_platform_features`: copies the internal feature struct. -/
def hal_watchdog_get_platform_features : watchdog_features_t :=
  nordic_nrf5_features

/- ------------------------------------------------------------------ -/
/- Theorems about the reset reason HAL -/
/- ------------------------------------------------------------------ -/

/-- C1: a reset-reason register reading that equals exactly the OFF-signal
mask, or exactly the DIF (debug interface mode) mask, is classified by
`hal_reset_reason_get` as the vendor-specific category
`RESET_REASON_PLATFORM`, not mapped onto any closer protocol-independent
reason. -/
theorem C1_off_dif_map_to_platform :
    hal_reset_reason_get NRF_POWER_RESETREAS_OFF_MASK = RESET_REASON_PLATFORM ∧
    hal_reset_reason_get NRF_POWER_RESETREAS_DIF_MASK = RESET_REASON_PLATFORM := by
  constructor <;> decide

/-- C3: `hal_reset_reason_get` is a total function of the 32-bit register
value; each recognized single-reason mask maps to its classification, the
value 0 maps to `RESET_REASON_UNKNOWN`, and every other nonzero value —
including one with a single set bit matching no recognized mask — maps to
`RESET_REASON_MULTIPLE`. -/
theorem C3_reset_reason_classification (r : Nat) (hlt : r < 2 ^ 32) :
    hal_reset_reason_get 0 = RESET_REASON_UNKNOWN ∧
    hal_reset_reason_get NRF_POWER_RESETREAS_RESETPIN_MASK = RESET_REASON_PIN_RESET ∧
    hal_reset_reason_get NRF_POWER_RESETREAS_DOG_MASK = RESET_REASON_WATCHDOG ∧
    hal_reset_reason_get NRF_POWER_RESETREAS_SREQ_MASK = RESET_REASON_SOFTWARE ∧
    hal_reset_reason_get NRF_POWER_RESETREAS_LOCKUP_MASK = RESET_REASON_LOCKUP ∧
    hal_reset_reason_get NRF_POWER_RESETREAS_OFF_MASK = RESET_REASON_PLATFORM ∧
    hal_reset_reason_get NRF_POWER_RESETREAS_LPCOMP_MASK = RESET_REASON_PLATFORM ∧
    hal_reset_reason_get NRF_POWER_RESETREAS_DIF_MASK = RESET_REASON_PLATFORM ∧
    hal_reset_reason_get NRF_POWER_RESETREAS_NFC_MASK = RESET_REASON_PLATFORM ∧
    hal_reset_reason_get NRF_POWER_RESETREAS_VBUS_MASK = RESET_REASON_PLATFORM ∧
    (r ≠ 0 → r ∉ recognizedMasks → hal_reset_reason_get r = RESET_REASON_MULTIPLE) := by
  refine ⟨by decide, by decide, by decide, by decide, by decide, by decide, by decide,
    by decide, by decide, by decide, ?_⟩
  intro hne hmem
  simp only [recognizedMasks, List.mem_cons, List.not_mem_nil, or_false, not_or] at hmem
  obtain ⟨h1, h2, h3, h4, h5, h6, h7, h8, h9⟩ := hmem
  simp [hal_reset_reason_get, h1, h2, h3, h4, h5, h6, h7, h8, h9, hne]

/-- Witness for C3 at the concrete register value 16 = bit 4, a single set
bit that matches no recognized mask. -/
theorem C3_reset_reason_classification_witness :
    hal_reset_reason_get 16 = RESET_REASON_MULTIPLE :=
  (C3_reset_reason_classification 16 (by decide)).2.2.2.2.2.2.2.2.2.2
    (by decide) (by decide)

/- ------------------------------------------------------------------ -/
/- Theorems about the watchdog HAL -/
/- ------------------------------------------------------------------ -/

/-- C2 (divergence record): the advertised `max_timeout` is 131071000 ms,
yet `hal_watchdog_init` with `timeout_ms = 131072` — well inside that
range — computes `(131072 * 32768) % 2^32 = 0` ticks in 32-bit unsigned
arithmetic and returns `WATCHDOG_STATUS_INVALID_ARGUMENT` for every prior
state, contradicting the documented contract that only timeouts outside
the supported range are rejected. -/
theorem C2_watchdog_range_overflow_bug :
    nordic_nrf5_features.max_timeout = 131071000 ∧
    1 ≤ 131072 ∧ 131072 ≤ nordic_nrf5_features.max_timeout ∧
    timeout_ticks 131072 = 0 ∧
    ∀ s : WatchdogState,
      (hal_watchdog_init ⟨131072⟩ s).1 = WATCHDOG_STATUS_INVALID_ARGUMENT := by
  refine ⟨by decide, by decide, by decide, by decide, fun s => ?_⟩
  simp [hal_watchdog_init, timeout_ticks]

/-- C4: `hal_watchdog_init` is atomic with respect to the stored reload
value: on `WATCHDOG_STATUS_INVALID_ARGUMENT` the value read back by
`hal_watchdog_get_reload_value` is unchanged, and on `WATCHDOG_STATUS_OK`
it equals the `timeout_ms` of the config. -/
theorem C4_watchdog_init_reload_atomic (config : watchdog_config_t)
    (s : WatchdogState) (hcfg : config.timeout_ms < 2 ^ 32) :
    ((hal_watchdog_init config s).1 = WATCHDOG_STATUS_INVALID_ARGUMENT →
      hal_watchdog_get_reload_value (hal_watchdog_init config s).2 =
        hal_watchdog_get_reload_value s) ∧
    ((hal_watchdog_init config s).1 = WATCHDOG_STATUS_OK →
      hal_watchdog_get_reload_value (hal_watchdog_init config s).2 =
        config.timeout_ms) := by
  unfold hal_watchdog_init
  by_cases h : 0 < timeout_ticks config.timeout_ms ∧
      timeout_ticks config.timeout_ms < UINT32_MAX
  · simp [h, hal_watchdog_get_reload_value]
  · simp [h, hal_watchdog_get_reload_value]

/-- Witness for C4 at concrete inputs: a 0 ms timeout is rejected leaving
the stored value 5 intact, and a 1000 ms timeout is accepted and stored. -/
theorem C4_watchdog_init_reload_atomic_witness :
    hal_watchdog_get_reload_value (hal_watchdog_init ⟨0⟩ ⟨5⟩).2 = 5 ∧
    hal_watchdog_get_reload_value (hal_watchdog_init ⟨1000⟩ ⟨5⟩).2 = 1000 :=
  ⟨(C4_watchdog_init_reload_atomic ⟨0⟩ ⟨5⟩ (by decide)).1 (by decide),
   (C4_watchdog_init_reload_atomic ⟨1000⟩ ⟨5⟩ (by decide)).2 (by decide)⟩

/- ------------------------------------------------------------------ -/
/- AT Command Engine -/
/- ------------------------------------------------------------------ -/

/-- Character-list prefix test, recursion with decidable character
equality (the library function `String.isPrefixOf` goes through `UInt32`
primitives that the kernel cannot evaluate). -/
def list_pfx : List Char → List Char → Bool
  | [], _ => true
  | _ :: _, [] => false
  | a :: as, b :: bs => if a = b then list_pfx as bs else false

/-- The `str_pfx p l` holds when the string `p` is an initial segment of `l`. -/
def str_pfx (p l : String) : Bool :=
  list_pfx p.data l.data

/-- Number of occurrences of `a` in a list, by decidable equality. -/
def countOcc {α : Type} [DecidableEq α] (a : α) : List α → Nat
  | [] => 0
  | b :: t => (if b = a then 1 else 0) + countOcc a t

/-- Final-result token classes of the AT wire protocol. -/
inductive FinalTok where
  | tokOK
  | tokERR
  deriving DecidableEq, Repr

/-- Modelled from the spec (the AT handler implementation is not among the
available sources): a reply line is a final-result line when it is `OK`,
`ERROR`, or a numeric `+CME ERROR:<n>` / `+CMS ERROR:<n>` line; final-result
lines always terminate processing of the current command. -/
def final_result_of (l : String) : Option FinalTok :=
  if l = "OK" then some FinalTok.tokOK
  else if l = "ERROR" then some FinalTok.tokERR
  else if str_pfx "+CME ERROR:" l then some FinalTok.tokERR
  else if str_pfx "+CMS ERROR:" l then some FinalTok.tokERR
  else none

/-- URC registrations: pairs of a line-prefix string and a handler
identifier, most recent registration first. -/
def UrcRegs : Type := List (String × Nat)

/-- Modelled from the spec: `register_urc(prefix, handler)` is idempotent
and registering the same prefix twice replaces the handler (last write
wins), so any previous entry for the same prefix string is dropped. -/
def register_urc (pfx : String) (hid : Nat) (regs : UrcRegs) : UrcRegs :=
  (pfx, hid) :: List.filter (fun r => r.1 ≠ pfx) regs

/-- Modelled from the spec: `unregister_urc(prefix)` removes the
registration for that prefix; idempotent. -/
def unregister_urc (pfx : String) (regs : UrcRegs) : UrcRegs :=
  List.filter (fun r => r.1 ≠ pfx) regs

/-- The handler, if any, whose registered prefix matches the line (most
recent matching registration). -/
def urc_lookup (regs : UrcRegs) (l : String) : Option Nat :=
  (List.find? (fun r => str_pfx r.1 l) regs).map (fun r => r.2)

/-- Outcome of the line-reading loop of the engine for one exchange:
the URC handler invocations `(handler, line)` in dispatch order, the
payload lines accumulated for the caller, and the final-result token if
one arrived before the timeout. -/
structure ProcessOut where
  urc_events : List (Nat × String)
  payload : List String
  final : Option FinalTok
  deriving DecidableEq, Repr

/-- Modelled from the spec: the engine reads lines until a final-result
token or timeout; each non-final line matching a currently-registered URC
prefix is dispatched immediately to its handler and excluded from the
payload of the command, and any other non-final line is accumulated as payload.
The argument list holds the lines that arrived within the timeout of the
command, in arrival order. -/
def process_lines (regs : UrcRegs) : List String → ProcessOut
  | [] => ⟨[], [], none⟩
  | l :: rest =>
    match final_result_of l with
    | some t => ⟨[], [], some t⟩
    | none =>
      let o := process_lines regs rest
      match urc_lookup regs l with
      | some hid => ⟨(hid, l) :: o.urc_events, o.payload, o.final⟩
      | none => ⟨o.urc_events, l :: o.payload, o.final⟩

/-- Modelled from the spec: the error state of the engine — none, stream
timeout, device-reported error, or parse/protocol-sync failure. -/
inductive ErrorState where
  | noError
  | timeoutError
  | deviceError
  | desyncError
  deriving DecidableEq, Repr

/-- Modelled from the spec: the mutable state of the engine — the registered
URC handlers and the last error observed. -/
structure EngineState where
  regs : UrcRegs
  lastError : ErrorState

/-- Classified result of `send`. -/
inductive SendResult where
  | okPayload (payload : List String)
  | resultDeviceError
  | resultTimeout
  deriving DecidableEq, Repr

/-- Modelled from the spec: `send` writes the command and reads lines
until a final-result token or timeout.  `arrived` is the list of reply
lines that arrived within the timeout of the command.  On `OK` it returns the
accumulated payload; on a device-reported error it returns
`DEVICE_ERROR` and records it; when no final-result line arrived it
returns `TIMEOUT` and records a stream timeout.  The error state is only
ever written on an observed failure, never reset here (clearing is the
explicit act of the caller). -/
def send (s : EngineState) (arrived : List String) : SendResult × EngineState :=
  let o := process_lines s.regs arrived
  match o.final with
  | some FinalTok.tokOK => (SendResult.okPayload o.payload, s)
  | some FinalTok.tokERR =>
      (SendResult.resultDeviceError, { s with lastError := ErrorState.deviceError })
  | none => (SendResult.resultTimeout, { s with lastError := ErrorState.timeoutError })

/-- The `get_last_error()`: the last error code/class observed by the engine. -/
def get_last_error (s : EngineState) : ErrorState :=
  s.lastError

/-- Modelled from the spec: `clear_error()` is the explicit reset by the caller
of the error state. -/
def clear_error (s : EngineState) : EngineState :=
  { s with lastError := ErrorState.noError }

/-- The operations a caller can perform on the engine between exchanges. -/
inductive EngineOp where
  | opSend (arrived : List String)
  | opRegisterUrc (pfx : String) (hid : Nat)
  | opUnregisterUrc (pfx : String)
  | opClearError

/-- The `true` exactly on `opClearError`. -/
def EngineOp.isClear : EngineOp → Bool
  | EngineOp.opClearError => true
  | _ => false

/-- The `true` exactly on `opSend`. -/
def EngineOp.isSend : EngineOp → Bool
  | EngineOp.opSend _ => true
  | _ => false

/-- Interpretation of one engine operation on the engine state. -/
def apply_op (s : EngineState) : EngineOp → EngineState
  | EngineOp.opSend arrived => (send s arrived).2
  | EngineOp.opRegisterUrc pfx hid => { s with regs := register_urc pfx hid s.regs }
  | EngineOp.opUnregisterUrc pfx => { s with regs := unregister_urc pfx s.regs }
  | EngineOp.opClearError => clear_error s

/-- Interpretation of a sequence of engine operations. -/
def apply_ops (s : EngineState) (ops : List EngineOp) : EngineState :=
  List.foldl apply_op s ops

/- ------------------------------------------------------------------ -/
/- Theorems about the AT command engine -/
/- ------------------------------------------------------------------ -/

/-- After `register_urc pfx hid`, any line extending `pfx` resolves to the
handler `hid` (the fresh registration is the most recent). -/
theorem urc_lookup_register (regs0 : UrcRegs) (pfx : String) (hid : Nat)
    (l : String) (hp : str_pfx pfx l = true) :
    urc_lookup (register_urc pfx hid regs0) l = some hid := by
  simp [urc_lookup, register_urc, List.find?, hp]

/-- Line-loop bookkeeping: when `l` resolves to handler `hid` and is not a
final-result line, the number of `(hid, l)` dispatches equals the number of
arrivals of `l` before the first final-result line, and `l` never enters the
payload. -/
theorem process_lines_urc (regs : UrcRegs) (l : String) (hid : Nat)
    (hl : urc_lookup regs l = some hid) (hf : final_result_of l = none)
    (lines : List String) :
    countOcc (hid, l) (process_lines regs lines).urc_events =
      countOcc l (List.takeWhile (fun x => (final_result_of x).isNone) lines) ∧
    l ∉ (process_lines regs lines).payload := by
  induction lines with
  | nil => simp [process_lines, countOcc]
  | cons x rest ih =>
    cases hx : final_result_of x with
    | some t => simp [process_lines, hx, countOcc, List.takeWhile_cons]
    | none =>
      by_cases hxl : x = l
      · subst hxl
        simp [process_lines, hx, hl, countOcc, List.takeWhile_cons, ih]
      · cases hlx : urc_lookup regs x with
        | some hid2 =>
          simp [process_lines, hx, hlx, countOcc, List.takeWhile_cons, ih, hxl]
        | none =>
          simp [process_lines, hx, hlx, countOcc, List.takeWhile_cons, ih,
            hxl, Ne.symm hxl]

/-- C6: with a URC handler registered for prefix `pfx`, an unsolicited line
`l` beginning with `pfx` that arrives exactly once while the command is in
flight (before any final-result line) is dispatched to that handler exactly
once, never enters the payload of the line loop, and is excluded from the
payload that `send` returns for the in-flight command. -/
theorem C6_urc_dispatched_once_and_excluded (regs0 : UrcRegs) (pfx : String)
    (hid : Nat) (l : String) (lines : List String) (e : ErrorState)
    (hp : str_pfx pfx l = true)
    (hf : final_result_of l = none)
    (honce : countOcc l
      (List.takeWhile (fun x => (final_result_of x).isNone) lines) = 1) :
    countOcc (hid, l)
        (process_lines (register_urc pfx hid regs0) lines).urc_events = 1 ∧
    l ∉ (process_lines (register_urc pfx hid regs0) lines).payload ∧
    ∀ p, (send ⟨register_urc pfx hid regs0, e⟩ lines).1 =
        SendResult.okPayload p → l ∉ p := by
  have hl := urc_lookup_register regs0 pfx hid l hp
  have h := process_lines_urc (register_urc pfx hid regs0) l hid hl hf lines
  refine ⟨h.1.trans honce, h.2, ?_⟩
  intro p hsend
  cases hfin : (process_lines (register_urc pfx hid regs0) lines).final with
  | none => simp [send, hfin] at hsend
  | some t =>
    cases t with
    | tokOK =>
      simp [send, hfin] at hsend
      rw [← hsend]
      exact h.2
    | tokERR => simp [send, hfin] at hsend

/-- Witness for C6: handler 7 registered for prefix `+CEREG:`; the
unsolicited line `+CEREG: 1` arriving once before the final `OK` is
dispatched exactly once and excluded from the payload. -/
theorem C6_urc_dispatched_once_and_excluded_witness :
    countOcc (7, "+CEREG: 1")
        (process_lines (register_urc "+CEREG:" 7 [])
          ["+CEREG: 1", "data", "OK"]).urc_events = 1 ∧
    "+CEREG: 1" ∉ (process_lines (register_urc "+CEREG:" 7 [])
          ["+CEREG: 1", "data", "OK"]).payload :=
  ⟨(C6_urc_dispatched_once_and_excluded [] "+CEREG:" 7 "+CEREG: 1"
      ["+CEREG: 1", "data", "OK"] ErrorState.noError
      (by decide) (by decide) (by decide)).1,
   (C6_urc_dispatched_once_and_excluded [] "+CEREG:" 7 "+CEREG: 1"
      ["+CEREG: 1", "data", "OK"] ErrorState.noError
      (by decide) (by decide) (by decide)).2.1⟩

/-- If no line of the exchange is a final-result line, the line loop ends
without a final token. -/
theorem process_lines_final_none (regs : UrcRegs) (lines : List String)
    (h : ∀ l ∈ lines, final_result_of l = none) :
    (process_lines regs lines).final = none := by
  induction lines with
  | nil => simp [process_lines]
  | cons x rest ih =>
    have hx : final_result_of x = none := h x (by simp)
    have hr : (process_lines regs rest).final = none :=
      ih (fun l hl => h l (by simp [hl]))
    cases hlx : urc_lookup regs x <;> simp [process_lines, hx, hlx, hr]

/-- Without `clear_error`, no engine operation ever resets the error state
back to `noError`. -/
theorem lastError_never_autocleared (ops : List EngineOp) :
    ∀ s : EngineState, (∀ op ∈ ops, op.isClear = false) →
      s.lastError ≠ ErrorState.noError →
      (apply_ops s ops).lastError ≠ ErrorState.noError := by
  induction ops with
  | nil => intro s _ hs; exact hs
  | cons op rest ih =>
    intro s hops hs
    have hop : op.isClear = false := hops op (by simp)
    have hrest : ∀ o ∈ rest, o.isClear = false := fun o ho => hops o (by simp [ho])
    have hstep : (apply_op s op).lastError ≠ ErrorState.noError := by
      cases op with
      | opSend arrived =>
        unfold apply_op send
        cases hfin : (process_lines s.regs arrived).final with
        | none => simp [hfin]
        | some t => cases t <;> simp [hfin, hs]
      | opRegisterUrc pfx hid => simpa [apply_op] using hs
      | opUnregisterUrc pfx => simpa [apply_op] using hs
      | opClearError => simp [EngineOp.isClear] at hop
    simpa [apply_ops, List.foldl] using ih (apply_op s op) hrest hstep

/-- Operations that neither clear the error nor send a command leave the
error state untouched. -/
theorem lastError_stable_without_send (ops : List EngineOp) :
    ∀ s : EngineState, (∀ op ∈ ops, op.isClear = false ∧ op.isSend = false) →
      (apply_ops s ops).lastError = s.lastError := by
  induction ops with
  | nil => intro s _; rfl
  | cons op rest ih =>
    intro s hops
    have hop := hops op (by simp)
    have hrest : ∀ o ∈ rest, o.isClear = false ∧ o.isSend = false :=
      fun o ho => hops o (by simp [ho])
    have hstep : (apply_op s op).lastError = s.lastError := by
      cases op with
      | opSend arrived => simp [EngineOp.isSend] at hop
      | opRegisterUrc pfx hid => rfl
      | opUnregisterUrc pfx => rfl
      | opClearError => simp [EngineOp.isClear] at hop
    calc (apply_ops s (op :: rest)).lastError
        = (apply_ops (apply_op s op) rest).lastError := by
          simp [apply_ops, List.foldl]
      _ = (apply_op s op).lastError := ih (apply_op s op) hrest
      _ = s.lastError := hstep

/-- C8: a `send` in which no final-result line arrives within the timeout
returns `TIMEOUT`, `get_last_error` reflects the stream timeout right after
the call, keeps reflecting it across any further operations that are not
`clear_error` (and issue no new command), and is never reset to `noError`
automatically by any operation other than `clear_error`. -/
theorem C8_timeout_error_until_cleared (s : EngineState) (arrived : List String)
    (hnf : ∀ l ∈ arrived, final_result_of l = none) :
    (send s arrived).1 = SendResult.resultTimeout ∧
    get_last_error (send s arrived).2 = ErrorState.timeoutError ∧
    (∀ ops : List EngineOp, (∀ op ∈ ops, op.isClear = false ∧ op.isSend = false) →
      get_last_error (apply_ops (send s arrived).2 ops) = ErrorState.timeoutError) ∧
    (∀ ops : List EngineOp, (∀ op ∈ ops, op.isClear = false) →
      get_last_error (apply_ops (send s arrived).2 ops) ≠ ErrorState.noError) := by
  have hfin := process_lines_final_none s.regs arrived hnf
  have h2 : (send s arrived).2.lastError = ErrorState.timeoutError := by
    simp [send, hfin]
  refine ⟨by simp [send, hfin], h2, fun ops hops => ?_, fun ops hops => ?_⟩
  · unfold get_last_error
    rw [lastError_stable_without_send ops (send s arrived).2 hops, h2]
  · unfold get_last_error
    exact lastError_never_autocleared ops (send s arrived).2 hops (by simp [h2])

/-- Witness for C8: the lone line `incomplete reply` is not a final-result
line, so the exchange times out, the error reads back as a stream timeout,
survives a URC registration, and is still set after it. -/
theorem C8_timeout_error_until_cleared_witness :
    (send ⟨[], ErrorState.noError⟩ ["incomplete reply"]).1 = SendResult.resultTimeout ∧
    get_last_error (send ⟨[], ErrorState.noError⟩ ["incomplete reply"]).2 =
      ErrorState.timeoutError ∧
    get_last_error (apply_ops (send ⟨[], ErrorState.noError⟩ ["incomplete reply"]).2
      [EngineOp.opRegisterUrc "+X:" 1]) = ErrorState.timeoutError ∧
    get_last_error (apply_ops (send ⟨[], ErrorState.noError⟩ ["incomplete reply"]).2
      [EngineOp.opRegisterUrc "+X:" 1]) ≠ ErrorState.noError := by
  have h := C8_timeout_error_until_cleared ⟨[], ErrorState.noError⟩ ["incomplete reply"]
    (by intro l hl; simp at hl; subst hl; decide)
  exact ⟨h.1, h.2.1,
    h.2.2.1 [EngineOp.opRegisterUrc "+X:" 1] (by
      intro op hop; simp at hop; subst hop
      exact ⟨rfl, rfl⟩),
    h.2.2.2 [EngineOp.opRegisterUrc "+X:" 1] (by
      intro op hop; simp at hop; subst hop; rfl)⟩

/- ------------------------------------------------------------------ -/
/- Cellular Context state machine and vendor specialization -/
/- ------------------------------------------------------------------ -/

/-- IP stack types of a PDP context (`nsapi_ip_stack_t`). -/
inductive nsapi_ip_stack_t where
  | IPV4_STACK
  | IPV6_STACK
  | IPV4V6_STACK
  deriving DecidableEq, Repr

/-- Modelled from the spec: the states of the per-bearer Cellular Context
lifecycle. -/
inductive ContextState where
  | DETACHED
  | ATTACHING
  | STACK_NEGOTIATED
  | ACTIVATING
  | ACTIVE
  | DEACTIVATING
  deriving DecidableEq, Repr

/-- Error classes surfaced by the Context operations. -/
inductive ContextError where
  | NOT_ACTIVE
  | UNSUPPORTED_STACK_TYPE
  | CONTRACT_VIOLATION
  deriving DecidableEq, Repr

/-- Which socket backend a variant constructs its network stack on; the
BC95 narrow-band variant uses a restricted backend. -/
inductive StackBackend where
  | genericStack
  | bc95RestrictedStack
  deriving DecidableEq, Repr

/-- A network stack handle handed to the IP layer: bound to a stack type
and to the backend of the constructing variant. -/
structure NetworkStackHandle where
  stackType : nsapi_ip_stack_t
  backend : StackBackend
  deriving DecidableEq, Repr

/-- Modelled from the spec: one bearer — its lifecycle state, the stack
type the caller requested, and the stack type actually acknowledged by
the modem once activation succeeded. -/
structure Context where
  state : ContextState
  requestedStack : nsapi_ip_stack_t
  negotiatedStack : Option nsapi_ip_stack_t
  deriving DecidableEq, Repr

/-- A fresh Context: `DETACHED`, nothing negotiated yet. -/
def initial_context (requested : nsapi_ip_stack_t) : Context :=
  { state := ContextState.DETACHED
    requestedStack := requested
    negotiatedStack := none }

/-- Modelled from the spec: `attach()` moves `DETACHED` to `ATTACHING`
when the registration/attach command sequence succeeds (`ok`); on timeout
or device error the Context stays `DETACHED`.  Out-of-state calls leave
the Context unchanged. -/
def attach_fun (ok : Bool) (c : Context) : Context :=
  if c.state = ContextState.DETACHED ∧ ok then
    { c with state := ContextState.ATTACHING }
  else c

/-- Modelled from the spec (AT_CellularContext sources are not among the
available files): `negotiate_stack()` asks the vendor specialization
whether the requested stack type is supported; if so the Context moves
from `ATTACHING` to `STACK_NEGOTIATED`, otherwise it fails with
`UNSUPPORTED_STACK_TYPE` and the Context is left as it was (the §8
scenario keeps it in `ATTACHING`).  Out-of-state calls are rejected as a
contract violation without a transition. -/
def negotiate_stack (supported : nsapi_ip_stack_t → Bool) (c : Context) :
    Option ContextError × Context :=
  if c.state = ContextState.ATTACHING then
    if supported c.requestedStack then
      (none, { c with state := ContextState.STACK_NEGOTIATED })
    else
      (some ContextError.UNSUPPORTED_STACK_TYPE, c)
  else
    (some ContextError.CONTRACT_VIOLATION, c)

/-- Modelled from the spec: `activate()` issues the activation command,
moving `STACK_NEGOTIATED` to `ACTIVATING`. -/
def activate_fun (c : Context) : Context :=
  if c.state = ContextState.STACK_NEGOTIATED then
    { c with state := ContextState.ACTIVATING }
  else c

/-- Modelled from the spec: completion of activation.  On success the
Context becomes `ACTIVE` and records the stack type the modem actually
acknowledged (`acked`); on failure it returns directly to `DETACHED` —
no partially-active state is exposed. -/
def activate_result_fun (ok : Bool) (acked : nsapi_ip_stack_t) (c : Context) : Context :=
  if c.state = ContextState.ACTIVATING then
    if ok then
      { c with state := ContextState.ACTIVE, negotiatedStack := some acked }
    else
      { c with state := ContextState.DETACHED }
  else c

/-- Modelled from the spec: `deactivate()` moves `ACTIVE` to
`DEACTIVATING`. -/
def deactivate_fun (c : Context) : Context :=
  if c.state = ContextState.ACTIVE then
    { c with state := ContextState.DEACTIVATING }
  else c

/-- Modelled from the spec: completion of deactivation; `DEACTIVATING`
ends in `DETACHED` whether the teardown succeeded or failed. -/
def deactivate_result_fun (_ok : Bool) (c : Context) : Context :=
  if c.state = ContextState.DEACTIVATING then
    { c with state := ContextState.DETACHED }
  else c

/-- Modelled from the spec: `get_stack()`/`acquire_stack()` — called
before `ACTIVE` it fails with `NOT_ACTIVE`; in `ACTIVE` it returns a
handle bound to the negotiated stack type on the backend of the variant.  It
never transitions the Context. -/
def get_stack (backend : StackBackend) (c : Context) :
    Except ContextError NetworkStackHandle × Context :=
  match c.state, c.negotiatedStack with
  | ContextState.ACTIVE, some t => (Except.ok ⟨t, backend⟩, c)
  | _, _ => (Except.error ContextError.NOT_ACTIVE, c)

/-- The events driving one Context: caller operations together with the
engine-classified outcome of the underlying command exchange. -/
inductive ContextOp where
  | attach (ok : Bool)
  | negotiate
  | activate
  | activateResult (ok : Bool) (acked : nsapi_ip_stack_t)
  | deactivate
  | deactivateResult (ok : Bool)
  | getStack

/-- One step of the Context state machine under a vendor capability
predicate.  `getStack` causes no transition. -/
def context_step (supported : nsapi_ip_stack_t → Bool) (c : Context) :
    ContextOp → Context
  | ContextOp.attach ok => attach_fun ok c
  | ContextOp.negotiate => (negotiate_stack supported c).2
  | ContextOp.activate => activate_fun c
  | ContextOp.activateResult ok acked => activate_result_fun ok acked c
  | ContextOp.deactivate => deactivate_fun c
  | ContextOp.deactivateResult ok => deactivate_result_fun ok c
  | ContextOp.getStack => c

/-- The Context reached from a fresh Context by a sequence of events. -/
def context_run (supported : nsapi_ip_stack_t → Bool)
    (requested : nsapi_ip_stack_t) (ops : List ContextOp) : Context :=
  List.foldl (context_step supported) (initial_context requested) ops

/-- The states strictly after the start of a run, in visit order. -/
def states_after (supported : nsapi_ip_stack_t → Bool) (c : Context) :
    List ContextOp → List ContextState
  | [] => []
  | op :: ops =>
    (context_step supported c op).state ::
      states_after supported (context_step supported c op) ops

/-- All states a run visits, starting state first. -/
def visited (supported : nsapi_ip_stack_t → Bool)
    (requested : nsapi_ip_stack_t) (ops : List ContextOp) : List ContextState :=
  ContextState.DETACHED :: states_after supported (initial_context requested) ops

/-- The state pairs the lifecycle diagram of the specification allows as actual
transitions: the forward chain plus the two failure edges from
`ACTIVATING` and `DEACTIVATING` straight to `DETACHED`. -/
def allowed_transitions : List (ContextState × ContextState) :=
  [(ContextState.DETACHED, ContextState.ATTACHING),
   (ContextState.ATTACHING, ContextState.STACK_NEGOTIATED),
   (ContextState.STACK_NEGOTIATED, ContextState.ACTIVATING),
   (ContextState.ACTIVATING, ContextState.ACTIVE),
   (ContextState.ACTIVATING, ContextState.DETACHED),
   (ContextState.ACTIVE, ContextState.DEACTIVATING),
   (ContextState.DEACTIVATING, ContextState.DETACHED)]

/-- The ordered list of states every path from `DETACHED` must already
have visited to be in the given state. -/
def required : ContextState → List ContextState
  | ContextState.DETACHED => []
  | ContextState.ATTACHING => [ContextState.ATTACHING]
  | ContextState.STACK_NEGOTIATED =>
      [ContextState.ATTACHING, ContextState.STACK_NEGOTIATED]
  | ContextState.ACTIVATING =>
      [ContextState.ATTACHING, ContextState.STACK_NEGOTIATED, ContextState.ACTIVATING]
  | ContextState.ACTIVE =>
      [ContextState.ATTACHING, ContextState.STACK_NEGOTIATED, ContextState.ACTIVATING,
       ContextState.ACTIVE]
  | ContextState.DEACTIVATING =>
      [ContextState.ATTACHING, ContextState.STACK_NEGOTIATED, ContextState.ACTIVATING,
       ContextState.ACTIVE, ContextState.DEACTIVATING]

/- ------------------------------------------------------------------ -/
/- Vendor specialization: the capability set and the BC95 variant -/
/- ------------------------------------------------------------------ -/

/-- The overridable operations of a cellular context, one field per
virtual operation of the generic class (the vendor capability predicate
is passed to `negotiate_op` at call time, modelling virtual dispatch). -/
structure CellularContextOps where
  attach_op : Bool → Context → Context
  negotiate_op : (nsapi_ip_stack_t → Bool) → Context → Option ContextError × Context
  activate_op : Context → Context
  activate_result_op : Bool → nsapi_ip_stack_t → Context → Context
  deactivate_op : Context → Context
  deactivate_result_op : Bool → Context → Context
  stack_type_supported : nsapi_ip_stack_t → Bool
  get_stack_op : Context → Except ContextError NetworkStackHandle × Context

/-- Modelled from the spec: the generic `AT_CellularContext` behavior —
the shared state-machine operations, every stack type accepted, and the
network stack constructed on the generic backend. -/
def AT_CellularContext_ops : CellularContextOps :=
  { attach_op := attach_fun
    negotiate_op := negotiate_stack
    activate_op := activate_fun
    activate_result_op := activate_result_fun
    deactivate_op := deactivate_fun
    deactivate_result_op := deactivate_result_fun
    stack_type_supported := fun _ => true
    get_stack_op := get_stack StackBackend.genericStack }

/-- The BC95 variant, from
`features/cellular/framework/targets/QUECTEL/BC95/QUECTEL_BC95_CellularContext.h`:
the class derives from `AT_CellularContext` and declares overrides for
exactly two virtual operations, `get_stack` and `stack_type_supported`
(besides its constructor and destructor).  The overriding bodies are
modelled from the spec: the narrow-band BC95 supports only IPv4 and
constructs its stack on a restricted socket backend. -/
def QUECTEL_BC95_CellularContext_ops : CellularContextOps :=
  { AT_CellularContext_ops with
    stack_type_supported := fun t => decide (t = nsapi_ip_stack_t.IPV4_STACK)
    get_stack_op := get_stack StackBackend.bc95RestrictedStack }

/- ------------------------------------------------------------------ -/
/- Theorems about the Context state machine -/
/- ------------------------------------------------------------------ -/

/-- Every actual state change of one step is one of the transitions of the
lifecycle diagram. -/
theorem context_step_allowed (supported : nsapi_ip_stack_t → Bool)
    (c : Context) (op : ContextOp)
    (hne : (context_step supported c op).state ≠ c.state) :
    (c.state, (context_step supported c op).state) ∈ allowed_transitions := by
  cases op with
  | attach ok =>
    by_cases h : c.state = ContextState.DETACHED ∧ ok = true
    · simp [context_step, attach_fun, h.1, h.2, allowed_transitions]
    · simp [context_step, attach_fun, h] at hne
  | negotiate =>
    by_cases hA : c.state = ContextState.ATTACHING
    · by_cases hS : supported c.requestedStack = true
      · simp [context_step, negotiate_stack, hA, hS, allowed_transitions]
      · simp [context_step, negotiate_stack, hA, hS] at hne
    · simp [context_step, negotiate_stack, hA] at hne
  | activate =>
    by_cases h : c.state = ContextState.STACK_NEGOTIATED
    · simp [context_step, activate_fun, h, allowed_transitions]
    · simp [context_step, activate_fun, h] at hne
  | activateResult ok acked =>
    by_cases h : c.state = ContextState.ACTIVATING
    · cases ok with
      | true => simp [context_step, activate_result_fun, h, allowed_transitions]
      | false => simp [context_step, activate_result_fun, h, allowed_transitions]
    · simp [context_step, activate_result_fun, h] at hne
  | deactivate =>
    by_cases h : c.state = ContextState.ACTIVE
    · simp [context_step, deactivate_fun, h, allowed_transitions]
    · simp [context_step, deactivate_fun, h] at hne
  | deactivateResult ok =>
    by_cases h : c.state = ContextState.DEACTIVATING
    · simp [context_step, deactivate_result_fun, h, allowed_transitions]
    · simp [context_step, deactivate_result_fun, h] at hne
  | getStack => simp [context_step] at hne

/-- Each step either appends the new state to the ordered list of states a
path must have visited (a forward transition), or shrinks that list (a
failure return or no change). -/
theorem required_context_step (supported : nsapi_ip_stack_t → Bool)
    (c : Context) (op : ContextOp) :
    required (context_step supported c op).state =
      required c.state ++ [(context_step supported c op).state] ∨
    List.Sublist (required (context_step supported c op).state)
      (required c.state) := by
  cases op with
  | attach ok =>
    by_cases h : c.state = ContextState.DETACHED ∧ ok = true
    · left; simp [context_step, attach_fun, h.1, h.2, required]
    · right; simp [context_step, attach_fun, h]
  | negotiate =>
    by_cases hA : c.state = ContextState.ATTACHING
    · by_cases hS : supported c.requestedStack = true
      · left; simp [context_step, negotiate_stack, hA, hS, required]
      · right; simp [context_step, negotiate_stack, hA, hS]
    · right; simp [context_step, negotiate_stack, hA]
  | activate =>
    by_cases h : c.state = ContextState.STACK_NEGOTIATED
    · left; simp [context_step, activate_fun, h, required]
    · right; simp [context_step, activate_fun, h]
  | activateResult ok acked =>
    by_cases h : c.state = ContextState.ACTIVATING
    · cases ok with
      | true => left; simp [context_step, activate_result_fun, h, required]
      | false =>
        right
        simp [context_step, activate_result_fun, h, required, List.nil_sublist]
    · right; simp [context_step, activate_result_fun, h]
  | deactivate =>
    by_cases h : c.state = ContextState.ACTIVE
    · left; simp [context_step, deactivate_fun, h, required]
    · right; simp [context_step, deactivate_fun, h]
  | deactivateResult ok =>
    by_cases h : c.state = ContextState.DEACTIVATING
    · right
      simp [context_step, deactivate_result_fun, h, required, List.nil_sublist]
    · right; simp [context_step, deactivate_result_fun, h]
  | getStack => right; simp [context_step]

/-- Extending a run by one event appends the resulting state of that event to
the list of visited states. -/
theorem states_after_append (supported : nsapi_ip_stack_t → Bool) :
    ∀ (ops : List ContextOp) (op : ContextOp) (c : Context),
      states_after supported c (ops ++ [op]) =
        states_after supported c ops ++
          [(List.foldl (context_step supported) c (ops ++ [op])).state] := by
  intro ops
  induction ops with
  | nil => intro op c; simp [states_after, List.foldl]
  | cons o rest ih =>
    intro op c
    simp only [List.cons_append, states_after, List.foldl_cons, List.append_eq]
    rw [ih op (context_step supported c o)]

/-- Along any run from a fresh Context, the ordered list of states the
final state requires is a subsequence of the states actually visited. -/
theorem context_run_required_sublist (supported : nsapi_ip_stack_t → Bool)
    (requested : nsapi_ip_stack_t) (ops : List ContextOp) :
    List.Sublist (required (context_run supported requested ops).state)
      (visited supported requested ops) := by
  induction ops using List.reverseRecOn with
  | nil => simp [context_run, initial_context, required, visited, states_after]
  | append_singleton ops op ih =>
    have hrun : context_run supported requested (ops ++ [op]) =
        context_step supported (context_run supported requested ops) op := by
      simp [context_run, List.foldl_append]
    have hvis : visited supported requested (ops ++ [op]) =
        visited supported requested ops ++
          [(context_run supported requested (ops ++ [op])).state] := by
      simp only [visited, states_after_append, context_run, List.cons_append]
    rcases required_context_step supported (context_run supported requested ops) op
      with h | h
    · rw [hvis, hrun, h, ← hrun]
      exact List.Sublist.append ih (List.Sublist.refl _)
    · rw [hvis]
      refine List.Sublist.trans ?_ (List.sublist_append_left _ _)
      rw [hrun]
      exact h.trans ih

/-- C7: in every reachable execution, any actual state change is one of
the transitions of the diagram (the forward chain — so no transition skips a
state — plus the failure edges `ACTIVATING → DETACHED` and
`DEACTIVATING → DETACHED`), and a run that ends `ACTIVE` has visited
`ATTACHING`, `STACK_NEGOTIATED`, `ACTIVATING`, `ACTIVE` in that order. -/
theorem C7_active_reached_in_order (supported : nsapi_ip_stack_t → Bool)
    (requested : nsapi_ip_stack_t) :
    (∀ (c : Context) (op : ContextOp),
      (context_step supported c op).state ≠ c.state →
        (c.state, (context_step supported c op).state) ∈ allowed_transitions) ∧
    (∀ ops : List ContextOp,
      (context_run supported requested ops).state = ContextState.ACTIVE →
        List.Sublist
          [ContextState.ATTACHING, ContextState.STACK_NEGOTIATED,
           ContextState.ACTIVATING, ContextState.ACTIVE]
          (visited supported requested ops)) := by
  refine ⟨fun c op => context_step_allowed supported c op, fun ops hact => ?_⟩
  have h := context_run_required_sublist supported requested ops
  rw [hact] at h
  simpa [required] using h

/-- Witness for C7: with the BC95 variant and requested IPv4, the run
attach–negotiate–activate–success ends `ACTIVE` and its visited states
contain the mandated chain in order. -/
theorem C7_active_reached_in_order_witness :
    List.Sublist
      [ContextState.ATTACHING, ContextState.STACK_NEGOTIATED,
       ContextState.ACTIVATING, ContextState.ACTIVE]
      (visited QUECTEL_BC95_CellularContext_ops.stack_type_supported
        nsapi_ip_stack_t.IPV4_STACK
        [ContextOp.attach true, ContextOp.negotiate, ContextOp.activate,
         ContextOp.activateResult true nsapi_ip_stack_t.IPV4_STACK]) :=
  (C7_active_reached_in_order QUECTEL_BC95_CellularContext_ops.stack_type_supported
      nsapi_ip_stack_t.IPV4_STACK).2
    [ContextOp.attach true, ContextOp.negotiate, ContextOp.activate,
     ContextOp.activateResult true nsapi_ip_stack_t.IPV4_STACK]
    (by decide)

/-- One step preserves "an `ACTIVE` Context carries a negotiated stack
type". -/
theorem context_step_active_negotiated (supported : nsapi_ip_stack_t → Bool)
    (c : Context) (op : ContextOp)
    (h : c.state = ContextState.ACTIVE → ∃ t, c.negotiatedStack = some t) :
    (context_step supported c op).state = ContextState.ACTIVE →
      ∃ t, (context_step supported c op).negotiatedStack = some t := by
  cases op with
  | attach ok =>
    by_cases hc : c.state = ContextState.DETACHED ∧ ok = true
    · simp [context_step, attach_fun, hc.1, hc.2]
    · simpa [context_step, attach_fun, hc] using h
  | negotiate =>
    by_cases hA : c.state = ContextState.ATTACHING
    · by_cases hS : supported c.requestedStack = true
      · simp [context_step, negotiate_stack, hA, hS]
      · simpa [context_step, negotiate_stack, hA, hS] using h
    · simpa [context_step, negotiate_stack, hA] using h
  | activate =>
    by_cases hc : c.state = ContextState.STACK_NEGOTIATED
    · simp [context_step, activate_fun, hc]
    · simpa [context_step, activate_fun, hc] using h
  | activateResult ok acked =>
    by_cases hc : c.state = ContextState.ACTIVATING
    · cases ok with
      | true => intro _; exact ⟨acked, by simp [context_step, activate_result_fun, hc]⟩
      | false => simp [context_step, activate_result_fun, hc]
    · simpa [context_step, activate_result_fun, hc] using h
  | deactivate =>
    by_cases hc : c.state = ContextState.ACTIVE
    · simp [context_step, deactivate_fun, hc]
    · simpa [context_step, deactivate_fun, hc] using h
  | deactivateResult ok =>
    by_cases hc : c.state = ContextState.DEACTIVATING
    · simp [context_step, deactivate_result_fun, hc]
    · simpa [context_step, deactivate_result_fun, hc] using h
  | getStack => simpa [context_step] using h

/-- Any reachable `ACTIVE` Context carries a negotiated stack type (the
one the modem acknowledged at activation). -/
theorem context_run_active_negotiated (supported : nsapi_ip_stack_t → Bool)
    (requested : nsapi_ip_stack_t) (ops : List ContextOp) :
    (context_run supported requested ops).state = ContextState.ACTIVE →
      ∃ t, (context_run supported requested ops).negotiatedStack = some t := by
  suffices h : ∀ (l : List ContextOp) (c : Context),
      (c.state = ContextState.ACTIVE → ∃ t, c.negotiatedStack = some t) →
      ((List.foldl (context_step supported) c l).state = ContextState.ACTIVE →
        ∃ t, (List.foldl (context_step supported) c l).negotiatedStack = some t) by
    exact h ops (initial_context requested) (by simp [initial_context])
  intro l
  induction l with
  | nil => intro c hc; exact hc
  | cons op rest ih =>
    intro c hc
    exact ih (context_step supported c op)
      (context_step_active_negotiated supported c op hc)

/-- The `get_stack` outside `ACTIVE` fails with `NOT_ACTIVE` and changes
nothing. -/
theorem get_stack_not_active (backend : StackBackend) (c : Context)
    (h : c.state ≠ ContextState.ACTIVE) :
    get_stack backend c = (Except.error ContextError.NOT_ACTIVE, c) := by
  cases hs : c.state <;> cases hn : c.negotiatedStack <;>
    simp_all [get_stack]

/-- The `get_stack` in `ACTIVE` with a negotiated type returns the handle
bound to that type on the backend of the variant, without a transition. -/
theorem get_stack_active (backend : StackBackend) (c : Context)
    (t : nsapi_ip_stack_t) (hs : c.state = ContextState.ACTIVE)
    (hn : c.negotiatedStack = some t) :
    get_stack backend c = (Except.ok ⟨t, backend⟩, c) := by
  simp [get_stack, hs, hn]

/-- C9: on any reachable Context, `get_stack` in a state other than
`ACTIVE` always fails with `NOT_ACTIVE` and leaves the Context unchanged;
in `ACTIVE` it always succeeds, causes no transition, and the handle is
bound to the negotiated stack type recorded from the modem — not to the
requested type when the two differ. -/
theorem C9_get_stack_contract (supported : nsapi_ip_stack_t → Bool)
    (requested : nsapi_ip_stack_t) (backend : StackBackend)
    (ops : List ContextOp) :
    ((context_run supported requested ops).state ≠ ContextState.ACTIVE →
      get_stack backend (context_run supported requested ops) =
        (Except.error ContextError.NOT_ACTIVE,
         context_run supported requested ops)) ∧
    ((context_run supported requested ops).state = ContextState.ACTIVE →
      ∃ t, (context_run supported requested ops).negotiatedStack = some t ∧
        get_stack backend (context_run supported requested ops) =
          (Except.ok ⟨t, backend⟩, context_run supported requested ops) ∧
        (t ≠ (context_run supported requested ops).requestedStack →
          NetworkStackHandle.stackType ⟨t, backend⟩ ≠
            (context_run supported requested ops).requestedStack)) := by
  refine ⟨fun hne => get_stack_not_active backend _ hne, fun hact => ?_⟩
  obtain ⟨t, ht⟩ := context_run_active_negotiated supported requested ops hact
  exact ⟨t, ht, get_stack_active backend _ t hact ht, fun hne => by simpa using hne⟩

/-- Witness for C9: before `ACTIVE` (empty run) `get_stack` fails with
`NOT_ACTIVE`; after a run in which IPv4v6 was requested but the modem
acknowledged IPv6, the handle is bound to IPv6, the negotiated type. -/
theorem C9_get_stack_contract_witness :
    get_stack StackBackend.genericStack
        (context_run (fun _ => true) nsapi_ip_stack_t.IPV4V6_STACK []) =
      (Except.error ContextError.NOT_ACTIVE,
       context_run (fun _ => true) nsapi_ip_stack_t.IPV4V6_STACK []) ∧
    get_stack StackBackend.genericStack
        (context_run (fun _ => true) nsapi_ip_stack_t.IPV4V6_STACK
          [ContextOp.attach true, ContextOp.negotiate, ContextOp.activate,
           ContextOp.activateResult true nsapi_ip_stack_t.IPV6_STACK]) =
      (Except.ok ⟨nsapi_ip_stack_t.IPV6_STACK, StackBackend.genericStack⟩,
       context_run (fun _ => true) nsapi_ip_stack_t.IPV4V6_STACK
          [ContextOp.attach true, ContextOp.negotiate, ContextOp.activate,
           ContextOp.activateResult true nsapi_ip_stack_t.IPV6_STACK]) := by
  constructor
  · exact (C9_get_stack_contract (fun _ => true) nsapi_ip_stack_t.IPV4V6_STACK
      StackBackend.genericStack []).1 (by decide)
  · obtain ⟨t, ht, heq, -⟩ :=
      (C9_get_stack_contract (fun _ => true) nsapi_ip_stack_t.IPV4V6_STACK
        StackBackend.genericStack
        [ContextOp.attach true, ContextOp.negotiate, ContextOp.activate,
         ContextOp.activateResult true nsapi_ip_stack_t.IPV6_STACK]).2 (by decide)
    have htv : (context_run (fun _ => true) nsapi_ip_stack_t.IPV4V6_STACK
        [ContextOp.attach true, ContextOp.negotiate, ContextOp.activate,
         ContextOp.activateResult true nsapi_ip_stack_t.IPV6_STACK]).negotiatedStack =
        some nsapi_ip_stack_t.IPV6_STACK := by decide
    rw [ht] at htv
    rw [Option.some.inj htv] at heq
    exact heq

/-- C10: a `negotiate_stack` call on an `ATTACHING` Context whose vendor
specialization reports the requested stack type unsupported fails with
`UNSUPPORTED_STACK_TYPE` and the Context remains `ATTACHING`. -/
theorem C10_negotiate_unsupported_remains_attaching
    (supported : nsapi_ip_stack_t → Bool) (c : Context)
    (hstate : c.state = ContextState.ATTACHING)
    (hunsup : supported c.requestedStack = false) :
    negotiate_stack supported c =
      (some ContextError.UNSUPPORTED_STACK_TYPE, c) ∧
    ((negotiate_stack supported c).2).state = ContextState.ATTACHING := by
  constructor
  · simp [negotiate_stack, hstate, hunsup]
  · simp [negotiate_stack, hstate, hunsup]

/-- Witness for C10: requested IPv4v6 against the BC95 variant (IPv4
only), on the Context reached by a successful `attach`: the call fails
with `UNSUPPORTED_STACK_TYPE` and the state is still `ATTACHING`. -/
theorem C10_negotiate_unsupported_remains_attaching_witness :
    negotiate_stack QUECTEL_BC95_CellularContext_ops.stack_type_supported
        (context_run QUECTEL_BC95_CellularContext_ops.stack_type_supported
          nsapi_ip_stack_t.IPV4V6_STACK [ContextOp.attach true]) =
      (some ContextError.UNSUPPORTED_STACK_TYPE,
       context_run QUECTEL_BC95_CellularContext_ops.stack_type_supported
          nsapi_ip_stack_t.IPV4V6_STACK [ContextOp.attach true]) ∧
    ((negotiate_stack QUECTEL_BC95_CellularContext_ops.stack_type_supported
        (context_run QUECTEL_BC95_CellularContext_ops.stack_type_supported
          nsapi_ip_stack_t.IPV4V6_STACK [ContextOp.attach true])).2).state =
      ContextState.ATTACHING :=
  C10_negotiate_unsupported_remains_attaching
    QUECTEL_BC95_CellularContext_ops.stack_type_supported
    (context_run QUECTEL_BC95_CellularContext_ops.stack_type_supported
      nsapi_ip_stack_t.IPV4V6_STACK [ContextOp.attach true])
    (by decide) (by decide)

/-- C5: the BC95 variant agrees with the generic context on every
operation outside the capability set and overrides exactly
`stack_type_supported` (narrowed to IPv4 only) and `get_stack`
(constructed on the restricted backend). -/
theorem C5_bc95_overrides_exactly_capability_set :
    QUECTEL_BC95_CellularContext_ops.attach_op =
      AT_CellularContext_ops.attach_op ∧
    QUECTEL_BC95_CellularContext_ops.negotiate_op =
      AT_CellularContext_ops.negotiate_op ∧
    QUECTEL_BC95_CellularContext_ops.activate_op =
      AT_CellularContext_ops.activate_op ∧
    QUECTEL_BC95_CellularContext_ops.activate_result_op =
      AT_CellularContext_ops.activate_result_op ∧
    QUECTEL_BC95_CellularContext_ops.deactivate_op =
      AT_CellularContext_ops.deactivate_op ∧
    QUECTEL_BC95_CellularContext_ops.deactivate_result_op =
      AT_CellularContext_ops.deactivate_result_op ∧
    QUECTEL_BC95_CellularContext_ops.stack_type_supported ≠
      AT_CellularContext_ops.stack_type_supported ∧
    QUECTEL_BC95_CellularContext_ops.get_stack_op ≠
      AT_CellularContext_ops.get_stack_op ∧
    QUECTEL_BC95_CellularContext_ops.stack_type_supported
      nsapi_ip_stack_t.IPV4_STACK = true ∧
    QUECTEL_BC95_CellularContext_ops.stack_type_supported
      nsapi_ip_stack_t.IPV6_STACK = false ∧
    QUECTEL_BC95_CellularContext_ops.stack_type_supported
      nsapi_ip_stack_t.IPV4V6_STACK = false := by
  refine ⟨rfl, rfl, rfl, rfl, rfl, rfl, ?_, ?_, by decide, by decide, by decide⟩
  · intro h
    exact absurd (congrFun h nsapi_ip_stack_t.IPV6_STACK) (by decide)
  · intro h
    have h1 := congrFun h
      ⟨ContextState.ACTIVE, nsapi_ip_stack_t.IPV4_STACK,
       some nsapi_ip_stack_t.IPV4_STACK⟩
    simp [QUECTEL_BC95_CellularContext_ops, AT_CellularContext_ops,
      get_stack] at h1

/-- Witness for C5 at a concrete stack type: the BC95 override keeps IPv4
supported while it narrows IPv6 support away. -/
theorem C5_bc95_overrides_exactly_capability_set_witness :
    QUECTEL_BC95_CellularContext_ops.stack_type_supported
      nsapi_ip_stack_t.IPV6_STACK = false :=
  C5_bc95_overrides_exactly_capability_set.2.2.2.2.2.2.2.2.2.1

end MbedOS
